import Mathlib

/-!
Verification development for the autophone orchestration engine, a shallow
embedding of src/autophone.py and src/autophonepulsemonitor.py.

Pure data and control flow of each relevant routine is translated into
executable Lean definitions.  External collaborators (the build cache, the
filesystem contents of a cache directory, Taskcluster and Treeherder HTTP
lookups, time.mktime) are modeled as explicit environment records that the
embedded routines consume, mirroring exactly how the Python code consumes
their results.  Effects that the claims talk about (worker add_job calls,
message acknowledgement, temp-directory removal, log lines, uncaught
exceptions) are made explicit in the return types.
-/

namespace Autophone

/-- Python s1 in s2 substring test (the in operator on strings). -/
def strContains (s pat : String) : Bool := decide (pat.toList <:+: s.toList)

/-- Python dict assignment d[k] = v on an insertion-ordered association list:
replaces the value in place when the key already exists, appends otherwise. -/
def dictInsert {α : Type} (l : List (String × α)) (k : String) (v : α) :
    List (String × α) :=
  if l.any (fun p => decide (p.1 = k)) then
    l.map (fun p => if p.1 = k then (k, v) else p)
  else l ++ [(k, v)]

/-! ## Model of AutoPhone.get_build / build_job / start_tests / trigger_jobs / on_build
    (src/autophone.py lines 382-454) -/

/-- The App section of application.ini as read by ConfigParser in
AutoPhone.build_job.  Each field is some value when cfg.get succeeds for the
corresponding key and none when cfg.get raises NoOptionError or
NoSectionError (a malformed ini file behaves like one with no readable keys,
since cfg.read of unparseable content also ends in an uncaught exception at
the same program point). -/
structure AppIni where
  sourceStamp : Option String
  version : Option String
  sourceRepository : Option String
  buildID : Option String
deriving DecidableEq

/-- Contents of the build.apk file inside one build-cache directory.
validZip is false exactly when zipfile.ZipFile raises zipfile.BadZipfile for
the archive; applicationIni is none when the application.ini member is
absent, in which case ZipFile.extract raises an uncaught KeyError. -/
structure Apk where
  validZip : Bool
  applicationIni : Option AppIni
deriving DecidableEq

/-- External environment of the dispatcher: the build cache
(builds.BuildCache.get, taking the build url, the enable_unittests flag and
the force keyword and returning a local directory), the apk found in each
cache directory, and time.mktime composed with datetime.timetuple on the
parsed BuildID fields (year, month, day, hour, minute, second); mktime
depends on the local timezone, so it is kept abstract. -/
structure BuildEnv where
  enable_unittests : Bool
  cache_get : String → Bool → Bool → String
  apkAt : String → Apk
  mktime : Nat × Nat × Nat × Nat × Nat × Nat → Int

/-- Days in a month, as validated by the datetime constructor. -/
def daysInMonth (y m : Nat) : Nat :=
  if m = 2 then (if (y % 4 = 0 ∧ y % 100 ≠ 0) ∨ y % 400 = 0 then 29 else 28)
  else if m = 4 ∨ m = 6 ∨ m = 9 ∨ m = 11 then 30 else 31

/-- Digits to a natural number. -/
def digitsToNat (cs : List Char) : Nat :=
  cs.foldl (fun a c => a * 10 + (c.toNat - 48)) 0

/-- datetime.strptime(s, %Y%m%d%H%M%S) on canonical 14-digit BuildID strings:
some fields when the string is 14 digits denoting a valid timestamp, none
when strptime or the datetime constructor raises ValueError.  (strptime also
accepts a few shorter numeric spellings; those never arise for BuildID
values and are rejected here.) -/
def parseBuildID (s : String) : Option (Nat × Nat × Nat × Nat × Nat × Nat) :=
  let cs := s.toList
  if cs.length = 14 ∧ cs.all (fun c => c.isDigit) then
    let y := digitsToNat (cs.take 4)
    let mo := digitsToNat ((cs.drop 4).take 2)
    let d := digitsToNat ((cs.drop 6).take 2)
    let h := digitsToNat ((cs.drop 8).take 2)
    let mi := digitsToNat ((cs.drop 10).take 2)
    let sec := digitsToNat ((cs.drop 12).take 2)
    if 1 ≤ mo ∧ mo ≤ 12 ∧ 1 ≤ d ∧ d ≤ daysInMonth y mo ∧ h ≤ 23 ∧ mi ≤ 59 ∧ sec ≤ 61
    then some (y, mo, d, h, mi, sec)
    else none
  else none

/-- The job dictionary built by AutoPhone.build_job (line 447). -/
structure Job where
  cache_build_dir : String
  blddate : Int
  revision : String
  androidprocname : String
  version : String
  bldtype : String
deriving DecidableEq

/-- Observable result of one AutoPhone.build_job call: the returned value
(none both when the method returns None and when it raises), the uncaught
exception if any, whether the bad-apk error was logged, and whether the
temporary extraction directory was removed before control left the method. -/
structure BuildJobResult where
  job : Option Job
  exn : Option String
  errorLogged : Bool
  tmpdirRemoved : Bool
deriving DecidableEq

/-- AutoPhone.get_build (lines 405-417): fetch the cache directory, check
build.apk with zipfile; on BadZipfile log a warning and fetch once more with
force=True, without re-checking the second directory. -/
def get_build (env : BuildEnv) (buildurl : String) : String :=
  let cache_build_dir := env.cache_get buildurl env.enable_unittests false
  if (env.apkAt cache_build_dir).validZip then cache_build_dir
  else env.cache_get buildurl env.enable_unittests true

/-- AutoPhone.build_job (lines 419-454).  tempfile.mkdtemp creates the temp
directory; shutil.rmtree removes it only on the BadZipfile path (lines
425-430) and on the normal return path (line 453).  On every other failure
(application.ini member absent, a missing App key, an unparseable BuildID)
the exception propagates and the directory is not removed. -/
def build_job (env : BuildEnv) (cache_build_dir : String) : BuildJobResult :=
  let apk := env.apkAt cache_build_dir
  if apk.validZip = false then
    { job := none, exn := none, errorLogged := true, tmpdirRemoved := true }
  else
    match apk.applicationIni with
    | none => { job := none, exn := some "KeyError", errorLogged := false, tmpdirRemoved := false }
    | some ini =>
      match ini.sourceStamp with
      | none => { job := none, exn := some "NoOptionError", errorLogged := false, tmpdirRemoved := false }
      | some rev =>
        match ini.version with
        | none => { job := none, exn := some "NoOptionError", errorLogged := false, tmpdirRemoved := false }
        | some ver =>
          match ini.sourceRepository with
          | none => { job := none, exn := some "NoOptionError", errorLogged := false, tmpdirRemoved := false }
          | some repo =>
            match ini.buildID with
            | none => { job := none, exn := some "NoOptionError", errorLogged := false, tmpdirRemoved := false }
            | some bid =>
              match parseBuildID bid with
              | none => { job := none, exn := some "ValueError", errorLogged := false, tmpdirRemoved := false }
              | some dt =>
                let procname :=
                  if repo = "http://hg.mozilla.org/mozilla-central" ∨
                     repo = "http://hg.mozilla.org/integration/mozilla-inbound" then
                    "org.mozilla.fennec"
                  else if repo = "http://hg.mozilla.org/releases/mozilla-aurora" then
                    "org.mozilla.fennec_aurora"
                  else if repo = "http://hg.mozilla.org/releases/mozilla-beta" then
                    "org.mozilla.firefox"
                  else ""
                { job := some { cache_build_dir := cache_build_dir,
                                blddate := env.mktime dt,
                                revision := rev,
                                androidprocname := procname,
                                version := ver,
                                bldtype := "opt" },
                  exn := none, errorLogged := false, tmpdirRemoved := true }

/-- The dispatcher state the fan-out claims observe: each registered worker
with the list of arguments its add_job method has received so far (add_job
itself lives in worker.py, outside this repository; only the calls made by
AutoPhone.start_tests are modeled). -/
structure APState where
  workers : List (String × List (Option Job))
deriving DecidableEq

/-- AutoPhone.start_tests (lines 225-230): under the worker lock, call
add_job(job) on every registered worker. -/
def start_tests (st : APState) (job : Option Job) : APState :=
  { workers := st.workers.map (fun w => (w.1, w.2 ++ [job])) }

/-- AutoPhone.trigger_jobs (lines 382-386): build a job from the fetched
build and hand it to start_tests.  The second component is an exception
propagating out of trigger_jobs (when build_job raises, start_tests is never
reached). -/
def trigger_jobs (env : BuildEnv) (st : APState) (data : String) :
    APState × Option String :=
  let r := build_job env (get_build env data)
  match r.exn with
  | some e => (st, some e)
  | none => (start_tests st r.job, none)

/-- AutoPhone.on_build (lines 393-403): messages without a buildurl key are
ignored; otherwise identical to the trigger_jobs dispatch path. -/
def on_build (env : BuildEnv) (st : APState) (msg_buildurl : Option String) :
    APState × Option String :=
  match msg_buildurl with
  | none => (st, none)
  | some url =>
    let r := build_job env (get_build env url)
    match r.exn with
    | some e => (st, some e)
    | none => (start_tests st r.job, none)

/-! ## Model of the worker roster (AutoPhone.read_cache / update_phone_cache /
    register_cmd, src/autophone.py lines 299-360) -/

/-- The phone_cfg dictionary built by AutoPhone.register_cmd. -/
structure PhoneConfig where
  phoneid : String
  serial : String
  ip : String
  sutcmdport : Nat
  machinetype : String
  osver : String
  debug : Nat
deriving DecidableEq

/-- The roster file as read_cache sees it: a valid JSON object with a phones
list (the only shape update_phone_cache ever writes), a valid JSON object
without a phones key (cache.get then yields the empty default), content that
makes json.loads raise ValueError, or a file whose open raises IOError with
the given errno. -/
inductive RosterFile
  | json (phones : List PhoneConfig)
  | jsonNoPhones
  | malformed
  | unreadable (e : Nat)
deriving DecidableEq

def ENOENT : Nat := 2

/-- AutoPhone.register_phone (lines 299-310) as it affects the registry
mapping: phone_workers[phone_cfg.phoneid] = worker. -/
def register_phone (workers : List (String × PhoneConfig)) (cfg : PhoneConfig) :
    List (String × PhoneConfig) :=
  dictInsert workers cfg.phoneid cfg

/-- AutoPhone.read_cache (lines 341-354): clear phone_workers, then register
every entry of the phones list; json.loads failures fall back to the empty
cache; IOError is re-raised unless errno is ENOENT.  Returns the resulting
registry together with the errno of a re-raised IOError, if any. -/
def read_cache : RosterFile → List (String × PhoneConfig) × Option Nat
  | RosterFile.json phones => (phones.foldl register_phone [], none)
  | RosterFile.jsonNoPhones => ([], none)
  | RosterFile.malformed => ([], none)
  | RosterFile.unreadable e => if e = ENOENT then ([], none) else ([], some e)

/-- AutoPhone.update_phone_cache (lines 356-360): overwrite the roster file
with the JSON object holding the phone_cfg of every registered worker. -/
def update_phone_cache (workers : List (String × PhoneConfig)) : RosterFile :=
  RosterFile.json (workers.map (fun p => p.2))

/-- Registry state: the in-memory mapping plus the roster file on disk. -/
structure RegState where
  phone_workers : List (String × PhoneConfig)
  cacheFile : RosterFile
deriving DecidableEq

/-- AutoPhone.register_cmd (lines 312-339) for one already-parsed
phone_cfg: a known phoneid only logs; a new one is registered and the
roster file rewritten. -/
def register_cmd (st : RegState) (cfg : PhoneConfig) : RegState :=
  if st.phone_workers.any (fun p => decide (p.1 = cfg.phoneid)) then st
  else
    let ws := register_phone st.phone_workers cfg
    { phone_workers := ws, cacheFile := update_phone_cache ws }

/-! ## Model of AutoPhone.worker_msg_loop (src/autophone.py lines 181-201) -/

/-- One result of worker_msg_queue.get(timeout=5) as the loop body observes
it: a delivered message carrying a phoneid, a Queue.Empty timeout, an
IOError with an errno, or a KeyboardInterrupt surfacing at the get call. -/
inductive QueueEvent
  | msg (phoneid : String)
  | empty
  | ioerr (e : Nat)
  | kbInterrupt
deriving DecidableEq

/-- How the loop left (or did not leave) after consuming a finite sequence of
queue events: still running, stopped through the KeyboardInterrupt handler
(which calls stop()), or terminated by an exception that propagated out. -/
inductive WMLOutcome
  | running
  | stopped
  | raised (exn : String)
deriving DecidableEq

def EINTR : Nat := 4

/-- AutoPhone.worker_msg_loop (lines 181-201) over a finite sequence of
queue events.  check_for_dead_workers and PhoneWorker.process_msg are
modeled as non-raising (the latter lives outside this repository); the only
try blocks are the inner one catching Queue.Empty and IOError and the outer
one catching KeyboardInterrupt.  The phone_workers dict lookup raises
KeyError for a phoneid that is not registered.  A non-EINTR IOError falls
out of the except clause without continue, so the lookup line runs with the
previously bound msg, tracked by the last argument (NameError when no
message was ever bound). -/
def worker_msg_loop (workers : List String) :
    List QueueEvent → Option String → WMLOutcome
  | [], _ => WMLOutcome.running
  | QueueEvent.kbInterrupt :: _, _ => WMLOutcome.stopped
  | QueueEvent.empty :: rest, last => worker_msg_loop workers rest last
  | QueueEvent.ioerr e :: rest, last =>
    if e = EINTR then worker_msg_loop workers rest last
    else
      match last with
      | none => WMLOutcome.raised "NameError"
      | some pid =>
        if pid ∈ workers then worker_msg_loop workers rest last
        else WMLOutcome.raised "KeyError"
  | QueueEvent.msg pid :: rest, _ =>
    if pid ∈ workers then worker_msg_loop workers rest (some pid)
    else WMLOutcome.raised "KeyError"

/-- An event the loop body tolerates: a message for a registered worker, an
EINTR IOError, a timeout, or a keyboard interrupt. -/
def goodEvent (workers : List String) : QueueEvent → Prop
  | QueueEvent.msg pid => pid ∈ workers
  | QueueEvent.ioerr e => e = EINTR
  | _ => True

/-! ## Model of AutophonePulseMonitor (src/autophonepulsemonitor.py) -/

/-- The tree, platform and buildtype filters the monitor is constructed
with (after list(...) copying). -/
structure MonitorConfig where
  trees : List String
  platforms : List String
  buildtypes : List String
deriving DecidableEq

/-- Stable insertion of a string into a list kept in descending length
order: the new element goes after every element of greater or equal
length. -/
def insertDesc (x : String) : List String → List String
  | [] => [x]
  | y :: ys => if y.length < x.length then x :: y :: ys else y :: insertDesc x ys

/-- The constructor line self.platforms.sort(cmp=lambda x, y: len(y) - len(x))
(src/autophonepulsemonitor.py lines 122-124).  Python list.sort is a stable
sort under the comparator, which orders by descending length; a stable
insertion sort computes the identical list. -/
def sortPlatforms (platforms : List String) : List String :=
  platforms.foldl (fun acc x => insertDesc x acc) []

/-- The detection loop of AutophonePulseMonitor.handle_jobaction (lines
285-297): detected_platform starts as the Treeherder job platform; the first
configured platform occurring as a substring of the build url replaces it. -/
def detect_platform (sorted_platforms : List String)
    (job_platform build_url : String) : String :=
  if sorted_platforms.isEmpty then job_platform
  else
    match sorted_platforms.find? (fun p => strContains build_url p) with
    | some p => p
    | none => job_platform

/-- Replace every non-overlapping occurrence of pat by rep, scanning left to
right, on character lists; the fuel argument (instantiated with the list
length) only makes the recursion structural. -/
def replaceChars (pat rep : List Char) : Nat → List Char → List Char
  | _, [] => []
  | 0, l => l
  | Nat.succ fuel, c :: cs =>
    if pat.isPrefixOf (c :: cs) then
      rep ++ replaceChars pat rep fuel ((c :: cs).drop pat.length)
    else c :: replaceChars pat rep fuel cs

/-- Python str.replace(pat, rep): replace every non-overlapping occurrence,
left to right.  (For the empty pattern Python interleaves rep everywhere;
the patterns used by the monitor are never empty, so that case keeps s.) -/
def strReplace (s pat rep : String) : String :=
  if pat = "" then s
  else String.mk (replaceChars pat.toList rep.toList s.toList.length s.toList)

/-- The Taskcluster task definition fields handle_taskcompleted reads:
payload.env.MH_BRANCH (none when the chained dict lookups raise KeyError,
which the code swallows) and workerType. -/
structure TaskDefinition where
  mh_branch : Option String
  workerType : String
deriving DecidableEq

/-- The build metadata dictionary returned by utils.get_build_data (a
collaborator outside this repository).  repo, platform and changeset are read
unconditionally by handle_taskcompleted; build_type is an Option because the
code re-checks its presence at line 397 after already indexing it at line
392 (indexing a missing key raises KeyError); hasId records whether the id
key is present for the same line-397 check. -/
structure BuildData where
  repo : String
  platform : String
  build_type : Option String
  hasId : Bool
  changeset : String
deriving DecidableEq

/-- External lookups used by handle_taskcompleted: the task definition by
task id, the artifact name listing by task and run id, utils.get_build_data
(build url and builder_type), builds.get_treeherder_tier (repo, task id,
run id) and utils.get_remote_json on the json-rev url, projected to the desc
field actually read. -/
structure TCEnv where
  task_definition : String → TaskDefinition
  artifacts : String → String → List String
  get_build_data : String → String → Option BuildData
  get_tier : String → String → String → Int
  get_rev_desc : String → Option String

/-- The final build_data object passed to build_callback, with the fields
handle_taskcompleted adds before emitting. -/
structure EmittedBuild where
  bd : BuildData
  builder_name : String
  app_data : List (String × String)
  comments : String
deriving DecidableEq

/-- Where handle_taskcompleted stopped: each early return of
src/autophonepulsemonitor.py lines 320-438, an uncaught KeyError, or the
build_callback invocation. -/
inductive TCOutcome
  | skipMhBranch
  | noBuildData
  | skipTier
  | skipRepo
  | skipPlatform
  | skipBuildType
  | skipMissingId
  | uncaughtKeyError
  | skipTryNoOptIn
  | emitted (e : EmittedBuild)
deriving DecidableEq

/-- True exactly when build_callback was invoked. -/
def isEmitted : TCOutcome → Bool
  | TCOutcome.emitted _ => true
  | _ => false

/-- builder_type resolution (line 345). -/
def builderTypeOf (td : TaskDefinition) : String :=
  if td.workerType = "buildbot" then "buildbot" else "taskcluster"

/-- The MH_BRANCH early gate (lines 335-343): skip when the key chain is
present and the branch is not a configured tree; a KeyError is swallowed. -/
def mhBranchSkips (trees : List String) (td : TaskDefinition) : Bool :=
  match td.mh_branch with
  | some b => decide (b ∉ trees)
  | none => false

/-- The artifact url format string of lines 363-364. -/
def artifactUrl (task_id run_id name : String) : String :=
  "https://queue.taskcluster.net/v1/task/" ++ task_id ++ "/runs/" ++ run_id ++
    "/artifacts/" ++ name

/-- The while loop over the artifact listing (lines 357-410), carrying the
current build_data and app_data.  An error value is one of the early
returns taken inside the loop; an ok value is the state when the listing is
exhausted. -/
def tcLoop (cfg : MonitorConfig) (env : TCEnv)
    (builder_type task_id run_id : String) :
    List String → Option BuildData → List (String × String) →
    Except TCOutcome (Option BuildData × List (String × String))
  | [], bd, app => Except.ok (bd, app)
  | name :: rest, bd, app =>
    let key := strReplace name "public/build/" ""
    let build_url := artifactUrl task_id run_id name
    if key = "target.apk" then
      let app2 := dictInsert app "org.mozilla.fennec" build_url
      match env.get_build_data build_url builder_type with
      | none => Except.error TCOutcome.noBuildData
      | some bd2 =>
        let tier := env.get_tier bd2.repo task_id run_id
        if builder_type ≠ "buildbot" ∧ tier ≠ 1 then Except.error TCOutcome.skipTier
        else if bd2.repo ∉ cfg.trees then Except.error TCOutcome.skipRepo
        else if bd2.platform ∉ cfg.platforms then Except.error TCOutcome.skipPlatform
        else
          match bd2.build_type with
          | none => Except.error TCOutcome.uncaughtKeyError
          | some bt =>
            if bt ∉ cfg.buildtypes then Except.error TCOutcome.skipBuildType
            else if bd2.hasId = false ∨ bd2.build_type.isNone then
              Except.error TCOutcome.skipMissingId
            else tcLoop cfg env builder_type task_id run_id rest (some bd2) app2
    else if key = "geckoview_example.apk" then
      tcLoop cfg env builder_type task_id run_id rest bd
        (dictInsert app "org.mozilla.geckoview_example" build_url)
    else tcLoop cfg env builder_type task_id run_id rest bd app

/-- The comments enrichment (lines 424-431): fetch the json-rev page derived
from the changeset url; on failure comments becomes unknown. -/
def tcComments (env : TCEnv) (bd : BuildData) : String :=
  match env.get_rev_desc (strReplace bd.changeset "/rev/" "/json-rev/") with
  | some desc => desc
  | none => "unknown"

/-- AutophonePulseMonitor.handle_taskcompleted (lines 320-438), composed
from the MH_BRANCH gate, the artifact loop and the comments tail with the
try opt-in gate (line 433). -/
def handle_taskcompleted (cfg : MonitorConfig) (env : TCEnv)
    (task_id run_id : String) : TCOutcome :=
  let td := env.task_definition task_id
  if mhBranchSkips cfg.trees td then TCOutcome.skipMhBranch
  else
    match tcLoop cfg env (builderTypeOf td) task_id run_id
        (env.artifacts task_id run_id) none [] with
    | Except.error o => o
    | Except.ok (none, _) => TCOutcome.noBuildData
    | Except.ok (some bd, app) =>
      let comments := tcComments env bd
      if bd.repo = "try" ∧ strContains comments "autophone" = false then
        TCOutcome.skipTryNoOptIn
      else
        TCOutcome.emitted
          { bd := bd, builder_name := "unknown", app_data := app, comments := comments }

/-- What one AutophonePulseMonitor.handle_message call (lines 226-236) did,
in order: acknowledge, then hand off to one of the two handlers. -/
inductive MsgAction
  | ack
  | processJobaction
  | processTaskcompleted
deriving DecidableEq

/-- The payload keys handle_message tests. -/
structure PulseData where
  hasAction : Bool
  hasProject : Bool
  hasJobId : Bool
  hasStatus : Bool
deriving DecidableEq

/-- AutophonePulseMonitor.handle_message (lines 226-236) as its ordered
trace of observable actions.  stopping is the state of the _stopping event;
treeherder_url is falsy when empty (the monitor default is None, modeled as
the empty string). -/
def handle_message (stopping : Bool) (treeherder_url : String) (d : PulseData) :
    List MsgAction :=
  if stopping then []
  else
    MsgAction.ack ::
      (if treeherder_url ≠ "" ∧ d.hasAction ∧ d.hasProject ∧ d.hasJobId then
        [MsgAction.processJobaction]
      else if d.hasStatus then [MsgAction.processTaskcompleted]
      else [])

/-! ## Concrete scenarios used by counterexamples and witnesses -/

/-- A build cache whose unforced and forced fetches both yield a corrupt
build.apk. -/
def c1env : BuildEnv :=
  { enable_unittests := false,
    cache_get := fun _ _ force => if force then "dir-forced" else "dir-first",
    apkAt := fun _ => { validZip := false, applicationIni := none },
    mktime := fun _ => 0 }

/-- One registered worker with an empty add_job history. -/
def c1st : APState := { workers := [("p1", [])] }

/-- A cache directory whose build.apk is a valid zip with no
application.ini member. -/
def c7env : BuildEnv :=
  { enable_unittests := false,
    cache_get := fun _ _ _ => "dir",
    apkAt := fun _ => { validZip := true, applicationIni := none },
    mktime := fun _ => 0 }

/-- A fully valid mozilla-central apk. -/
def c9ini : AppIni :=
  { sourceStamp := some "abcdef012345",
    version := some "29.0a1",
    sourceRepository := some "http://hg.mozilla.org/mozilla-central",
    buildID := some "20140115103254" }

def c9env : BuildEnv :=
  { enable_unittests := false,
    cache_get := fun _ _ _ => "dir",
    apkAt := fun _ => { validZip := true, applicationIni := some c9ini },
    mktime := fun _ => 1389781974 }

/-! ## Claim theorems -/

/-- Claim C7, counterexample: a valid zip without an application.ini member
makes ZipFile.extract raise KeyError, which build_job does not catch, and
the temporary extraction directory is not removed on that exit path; the
claim that every exit path removes it is therefore false. -/
theorem c7_counterexample :
    (build_job c7env "dir").exn = some "KeyError" ∧
    (build_job c7env "dir").tmpdirRemoved = false := by
  decide

/-- Claim C7 as amended: build_job removes its temporary extraction
directory exactly on the paths where control returns normally, namely when
it returns a Job and when it aborts on a bad zip; when an exception
(missing application.ini, unreadable App key, unparseable BuildID) escapes,
the directory is not removed. -/
theorem c7_amended (env : BuildEnv) (d : String) :
    (build_job env d).tmpdirRemoved = true ↔ (build_job env d).exn = none := by
  unfold build_job
  rcases h : (env.apkAt d).validZip with _ | _
  · simp [h]
  · rcases happ : (env.apkAt d).applicationIni with _ | ini
    · simp [h, happ]
    · rcases h1 : ini.sourceStamp with _ | rev
      · simp [h, happ, h1]
      · rcases h2 : ini.version with _ | ver
        · simp [h, happ, h1, h2]
        · rcases h3 : ini.sourceRepository with _ | repo
          · simp [h, happ, h1, h2, h3]
          · rcases h4 : ini.buildID with _ | bid
            · simp [h, happ, h1, h2, h3, h4]
            · rcases h5 : parseBuildID bid with _ | dt <;>
                simp [h, happ, h1, h2, h3, h4, h5]

/-- Claim C9: every Job that build_job returns carries the hardcoded
bldtype opt, whatever the apk contents and triggering event were. -/
theorem c9_bldtype (env : BuildEnv) (d : String) (j : Job)
    (h : (build_job env d).job = some j) : j.bldtype = "opt" := by
  unfold build_job at h
  rcases hz : (env.apkAt d).validZip with _ | _
  · simp [hz] at h
  · rcases happ : (env.apkAt d).applicationIni with _ | ini
    · simp [hz, happ] at h
    · rcases h1 : ini.sourceStamp with _ | rev
      · simp [hz, happ, h1] at h
      · rcases h2 : ini.version with _ | ver
        · simp [hz, happ, h1, h2] at h
        · rcases h3 : ini.sourceRepository with _ | repo
          · simp [hz, happ, h1, h2, h3] at h
          · rcases h4 : ini.buildID with _ | bid
            · simp [hz, happ, h1, h2, h3, h4] at h
            · rcases h5 : parseBuildID bid with _ | dt
              · simp [hz, happ, h1, h2, h3, h4, h5] at h
              · simp only [hz, happ, h1, h2, h3, h4, h5, Bool.true_eq_false,
                  if_false, Option.some.injEq] at h
                subst h
                rfl

/-- Witness for C9 at a concrete mozilla-central build. -/
theorem c9_witness :
    (build_job c9env "dir").job = some
      { cache_build_dir := "dir", blddate := 1389781974, revision := "abcdef012345",
        androidprocname := "org.mozilla.fennec", version := "29.0a1", bldtype := "opt" } ∧
    (((build_job c9env "dir").job.getD
      { cache_build_dir := "", blddate := 0, revision := "", androidprocname := "",
        version := "", bldtype := "" }).bldtype = "opt") := by
  refine ⟨by decide, ?_⟩
  have h : (build_job c9env "dir").job = some
      { cache_build_dir := "dir", blddate := 1389781974, revision := "abcdef012345",
        androidprocname := "org.mozilla.fennec", version := "29.0a1", bldtype := "opt" } := by
    decide
  rw [h]
  exact c9_bldtype c9env "dir" _ h

/-- Claim C1, counterexample: with both the initial and the forced fetch
corrupt, build_job returns no Job, yet trigger_jobs still calls start_tests
with the None job, so the add_job method of the registered worker is
invoked (with None) for the trigger; the claim that no add_job call happens
is therefore false. -/
theorem c1_counterexample :
    (build_job c1env (get_build c1env "http://x/build.apk")).job = none ∧
    (trigger_jobs c1env c1st "http://x/build.apk").1 =
      { workers := [("p1", [(none : Option Job)])] } := by
  decide

/-- Claim C1 as amended: when the cached build.apk fails zip verification
on the initial fetch and again on the forced re-fetch, build_job returns no
Job and logs the bad-apk error, but both trigger_jobs and on_build still
call start_tests with the None result, so every registered worker has
add_job invoked once with None for that trigger. -/
theorem c1_amended (env : BuildEnv) (st : APState) (u : String)
    (h0 : (env.apkAt (env.cache_get u env.enable_unittests false)).validZip = false)
    (h1 : (env.apkAt (env.cache_get u env.enable_unittests true)).validZip = false) :
    (build_job env (get_build env u)).job = none ∧
    (build_job env (get_build env u)).errorLogged = true ∧
    (trigger_jobs env st u).1.workers
      = st.workers.map (fun w => (w.1, w.2 ++ [(none : Option Job)])) ∧
    (on_build env st (some u)).1.workers
      = st.workers.map (fun w => (w.1, w.2 ++ [(none : Option Job)])) := by
  have hg : get_build env u = env.cache_get u env.enable_unittests true := by
    unfold get_build
    simp [h0]
  have hb : build_job env (get_build env u)
      = { job := none, exn := none, errorLogged := true, tmpdirRemoved := true } := by
    rw [hg]
    unfold build_job
    simp [h1]
  refine ⟨by rw [hb], by rw [hb], ?_, ?_⟩ <;>
    simp [trigger_jobs, on_build, hb, start_tests]

/-- Witness for C1 as amended, at the concrete corrupt cache. -/
theorem c1_witness :
    (build_job c1env (get_build c1env "u")).job = none ∧
    (build_job c1env (get_build c1env "u")).errorLogged = true ∧
    (trigger_jobs c1env c1st "u").1.workers
      = c1st.workers.map (fun w => (w.1, w.2 ++ [(none : Option Job)])) ∧
    (on_build c1env c1st (some "u")).1.workers
      = c1st.workers.map (fun w => (w.1, w.2 ++ [(none : Option Job)])) :=
  c1_amended c1env c1st "u" (by decide) (by decide)

/-- Claim C10: a roster file whose contents are not valid JSON makes
json.loads raise ValueError, which read_cache swallows, registering no
phones and raising nothing; IOError is re-raised only when its errno is not
ENOENT. -/
theorem c10_read_cache :
    read_cache RosterFile.malformed = ([], none) ∧
    read_cache (RosterFile.unreadable ENOENT) = ([], none) ∧
    (∀ e : Nat, e ≠ ENOENT → read_cache (RosterFile.unreadable e) = ([], some e)) := by
  refine ⟨rfl, rfl, ?_⟩
  intro e he
  simp [read_cache, he]

/-- Witness for C10 at errno 13 (EACCES). -/
theorem c10_witness : read_cache (RosterFile.unreadable 13) = ([], some 13) :=
  c10_read_cache.2.2 13 (by decide)

/-- Claim C2, counterexample: a message whose phoneid matches no registered
worker makes the phone_workers dict lookup raise KeyError, and the only
handler around the loop body catches KeyboardInterrupt, so the exception
propagates out of worker_msg_loop; the claim that no bad message can escape
the loop is therefore false. -/
theorem c2_counterexample :
    worker_msg_loop [] [QueueEvent.msg "unregistered-phone"] none
      = WMLOutcome.raised "KeyError" := by
  decide

/-- Claim C2 as amended: the loop survives exactly the events its two
except clauses cover — Queue.Empty timeouts, EINTR IOErrors, and messages
whose phoneid is registered — and a KeyboardInterrupt exits it through
stop(); but a message with an unregistered phoneid (or a non-EINTR IOError)
raises an exception that propagates out of the loop, and the loop reaches
the stopped state only through a keyboard interrupt. -/
theorem c2_amended (workers : List String) (events : List QueueEvent)
    (last : Option String) :
    ((∀ ev ∈ events, goodEvent workers ev) →
      ∀ s, worker_msg_loop workers events last ≠ WMLOutcome.raised s) ∧
    (worker_msg_loop workers events last = WMLOutcome.stopped →
      QueueEvent.kbInterrupt ∈ events) := by
  induction events generalizing last with
  | nil =>
    constructor
    · intro _ s
      simp [worker_msg_loop]
    · intro h
      simp [worker_msg_loop] at h
  | cons ev rest ih =>
    constructor
    · intro hg s
      cases ev with
      | msg pid =>
        have hpid : pid ∈ workers := hg _ (List.mem_cons_self _ _)
        simp only [worker_msg_loop, if_pos hpid]
        exact (ih (some pid)).1 (fun e he => hg e (List.mem_cons_of_mem _ he)) s
      | empty =>
        simp only [worker_msg_loop]
        exact (ih last).1 (fun e he => hg e (List.mem_cons_of_mem _ he)) s
      | ioerr e =>
        have he : e = EINTR := hg _ (List.mem_cons_self _ _)
        simp only [worker_msg_loop, if_pos he]
        exact (ih last).1 (fun e he => hg e (List.mem_cons_of_mem _ he)) s
      | kbInterrupt =>
        simp [worker_msg_loop]
    · intro hstop
      cases ev with
      | msg pid =>
        by_cases hpid : pid ∈ workers
        · simp only [worker_msg_loop, if_pos hpid] at hstop
          exact List.mem_cons_of_mem _ ((ih (some pid)).2 hstop)
        · simp [worker_msg_loop, hpid] at hstop
      | empty =>
        simp only [worker_msg_loop] at hstop
        exact List.mem_cons_of_mem _ ((ih last).2 hstop)
      | ioerr e =>
        by_cases he : e = EINTR
        · simp only [worker_msg_loop, if_pos he] at hstop
          exact List.mem_cons_of_mem _ ((ih last).2 hstop)
        · rcases last with _ | pid
          · simp [worker_msg_loop, he] at hstop
          · by_cases hpid : pid ∈ workers
            · simp only [worker_msg_loop, if_neg he, if_pos hpid] at hstop
              exact List.mem_cons_of_mem _ ((ih (some pid)).2 hstop)
            · simp [worker_msg_loop, he, hpid] at hstop
      | kbInterrupt =>
        exact List.mem_cons_self _ _

/-- Witness for C2 as amended: a tolerated event sequence neither raises
nor stops, and a sequence ending in a keyboard interrupt stops. -/
theorem c2_witness :
    (∀ s, worker_msg_loop ["p1"]
        [QueueEvent.empty, QueueEvent.ioerr 4, QueueEvent.msg "p1"] none
        ≠ WMLOutcome.raised s) ∧
    (worker_msg_loop ["p1"] [QueueEvent.kbInterrupt] none = WMLOutcome.stopped →
      QueueEvent.kbInterrupt ∈ [QueueEvent.kbInterrupt]) :=
  ⟨(c2_amended ["p1"] [QueueEvent.empty, QueueEvent.ioerr 4, QueueEvent.msg "p1"] none).1
      (by intro ev hev; fin_cases hev <;> simp [goodEvent, EINTR]),
   (c2_amended ["p1"] [QueueEvent.kbInterrupt] none).2⟩

/-- Claim C8, counterexample: a payload delivered after the stopping event
is set is returned from handle_message before message.ack is called, so it
is never acknowledged; the claim that every delivered payload, including
those arriving after stop, is acknowledged before processing is therefore
false. -/
theorem c8_counterexample :
    handle_message true ""
      { hasAction := false, hasProject := false, hasJobId := false, hasStatus := true }
      = [] ∧
    MsgAction.ack ∉ handle_message true ""
      { hasAction := false, hasProject := false, hasJobId := false, hasStatus := true } := by
  decide

/-- Claim C8 as amended: while stop has not been signaled every delivered
payload is acknowledged first, before any dispatch to handle_jobaction or
handle_taskcompleted; a payload arriving after stop is signaled is neither
acknowledged nor processed. -/
theorem c8_amended (stopping : Bool) (url : String) (d : PulseData) :
    (stopping = true → handle_message stopping url d = []) ∧
    (stopping = false → ∃ rest, handle_message stopping url d = MsgAction.ack :: rest ∧
      MsgAction.ack ∉ rest) := by
  constructor
  · intro h
    simp [handle_message, h]
  · intro h
    subst h
    refine ⟨_, rfl, ?_⟩
    by_cases h1 : url ≠ "" ∧ d.hasAction = true ∧ d.hasProject = true ∧ d.hasJobId = true
    · simp [h1]
    · by_cases h2 : d.hasStatus = true <;> simp [h1, h2]

/-- Witness for C8 as amended at a concrete status payload. -/
theorem c8_witness :
    handle_message true ""
      { hasAction := false, hasProject := false, hasJobId := false, hasStatus := true }
      = [] ∧
    (∃ rest, handle_message false ""
        { hasAction := false, hasProject := false, hasJobId := false, hasStatus := true }
        = MsgAction.ack :: rest ∧ MsgAction.ack ∉ rest) :=
  ⟨(c8_amended true ""
      { hasAction := false, hasProject := false, hasJobId := false, hasStatus := true }).1 rfl,
   (c8_amended false ""
      { hasAction := false, hasProject := false, hasJobId := false, hasStatus := true }).2 rfl⟩

/-! ## Roster round-trip lemmas (claim C6) -/

/-- dict assignment with a fresh key appends. -/
theorem dictInsert_fresh {α : Type} (l : List (String × α)) (k : String) (v : α)
    (h : ∀ p ∈ l, p.1 ≠ k) : dictInsert l k v = l ++ [(k, v)] := by
  unfold dictInsert
  have hany : l.any (fun p => decide (p.1 = k)) = false := by
    simp only [List.any_eq_false, decide_eq_true_eq]
    exact h
  simp [hany]

/-- Registering a list of fresh, mutually distinct configs appends their
pairs in order. -/
theorem foldl_register_phone (cfgs : List PhoneConfig) :
    ∀ acc : List (String × PhoneConfig),
      (acc.map (fun p => p.1) ++ cfgs.map (fun c => c.phoneid)).Nodup →
      cfgs.foldl register_phone acc = acc ++ cfgs.map (fun c => (c.phoneid, c)) := by
  induction cfgs with
  | nil =>
    intro acc _
    simp
  | cons c rest ih =>
    intro acc h
    have hdisj : (acc.map (fun p => p.1)).Disjoint
        (c.phoneid :: rest.map (fun c => c.phoneid)) :=
      (List.nodup_append.mp h).2.2
    have hfresh : ∀ p ∈ acc, p.1 ≠ c.phoneid := by
      intro p hp hpk
      exact hdisj (List.mem_map_of_mem _ hp) (hpk ▸ List.mem_cons_self _ _)
    have hstep : register_phone acc c = acc ++ [(c.phoneid, c)] :=
      dictInsert_fresh acc c.phoneid c hfresh
    have hnext : ((acc ++ [(c.phoneid, c)]).map (fun p => p.1)
        ++ rest.map (fun c => c.phoneid)).Nodup := by
      simpa [List.append_assoc] using h
    calc (c :: rest).foldl register_phone acc
        = rest.foldl register_phone (register_phone acc c) := by
          simp [List.foldl_cons]
      _ = (acc ++ [(c.phoneid, c)]) ++ rest.map (fun c => (c.phoneid, c)) := by
          rw [hstep]
          exact ih _ hnext
      _ = acc ++ (c :: rest).map (fun c => (c.phoneid, c)) := by
          simp [List.append_assoc]

/-- Effect of a run of register_cmd calls with fresh, mutually distinct
phoneids: the registry grows in order and, as soon as at least one
registration happened, the roster file holds exactly the registered
configs. -/
theorem foldl_register_cmd (cfgs : List PhoneConfig) :
    ∀ (ws : List (String × PhoneConfig)) (f : RosterFile),
      (ws.map (fun p => p.1) ++ cfgs.map (fun c => c.phoneid)).Nodup →
      (cfgs.foldl register_cmd { phone_workers := ws, cacheFile := f }).phone_workers
        = ws ++ cfgs.map (fun c => (c.phoneid, c)) ∧
      (cfgs.foldl register_cmd { phone_workers := ws, cacheFile := f }).cacheFile
        = if cfgs.isEmpty then f
          else update_phone_cache (ws ++ cfgs.map (fun c => (c.phoneid, c))) := by
  induction cfgs with
  | nil =>
    intro ws f _
    simp
  | cons c rest ih =>
    intro ws f h
    have hdisj : (ws.map (fun p => p.1)).Disjoint
        (c.phoneid :: rest.map (fun c => c.phoneid)) :=
      (List.nodup_append.mp h).2.2
    have hfresh : ∀ p ∈ ws, p.1 ≠ c.phoneid := by
      intro p hp hpk
      exact hdisj (List.mem_map_of_mem _ hp) (hpk ▸ List.mem_cons_self _ _)
    have hany : ws.any (fun p => decide (p.1 = c.phoneid)) = false := by
      simp only [List.any_eq_false, decide_eq_true_eq]
      exact hfresh
    have hstep : register_cmd { phone_workers := ws, cacheFile := f } c
        = { phone_workers := ws ++ [(c.phoneid, c)],
            cacheFile := update_phone_cache (ws ++ [(c.phoneid, c)]) } := by
      unfold register_cmd
      rw [if_neg (by simp [hany])]
      simp [register_phone, dictInsert_fresh ws c.phoneid c hfresh]
    have hnext : ((ws ++ [(c.phoneid, c)]).map (fun p => p.1)
        ++ rest.map (fun c => c.phoneid)).Nodup := by
      simpa [List.append_assoc] using h
    have hrec := ih (ws ++ [(c.phoneid, c)])
      (update_phone_cache (ws ++ [(c.phoneid, c)])) hnext
    rcases rest with _ | ⟨c2, rest2⟩
    · constructor
      · simp [List.foldl_cons, hstep]
      · simp [List.foldl_cons, hstep]
    · constructor
      · rw [List.foldl_cons, hstep, hrec.1]
        simp [List.append_assoc]
      · rw [List.foldl_cons, hstep, hrec.2]
        simp [List.append_assoc]

/-- Claim C6: first, persisting the roster of any registry whose entries
are keyed by their own phoneid (the invariant register_phone maintains)
and reloading it re-registers exactly the same PhoneConfigs; second, for
any sequence of register operations with pairwise distinct phoneids,
starting from an empty registry and any prior roster file, after each
operation the roster file holds exactly the PhoneConfigs of the currently
registered phoneids. -/
theorem c6_roster :
    (∀ ws : List (String × PhoneConfig),
      (∀ p ∈ ws, p.1 = p.2.phoneid) → (ws.map (fun p => p.1)).Nodup →
      read_cache (update_phone_cache ws) = (ws, none)) ∧
    (∀ (cfgs : List PhoneConfig) (f0 : RosterFile) (n : Nat),
      (cfgs.map (fun c => c.phoneid)).Nodup → n < cfgs.length →
      ((cfgs.take (n+1)).foldl register_cmd
          { phone_workers := [], cacheFile := f0 }).phone_workers
        = (cfgs.take (n+1)).map (fun c => (c.phoneid, c)) ∧
      ((cfgs.take (n+1)).foldl register_cmd
          { phone_workers := [], cacheFile := f0 }).cacheFile
        = RosterFile.json (cfgs.take (n+1))) := by
  constructor
  · intro ws hkey hnodup
    have hids : (ws.map (fun p => p.2)).map (fun c => c.phoneid)
        = ws.map (fun p => p.1) := by
      rw [List.map_map]
      exact List.map_congr_left (fun p hp => (hkey p hp).symm)
    have hfold := foldl_register_phone (ws.map (fun p => p.2)) []
      (by simpa [hids] using hnodup)
    have hpairs : (ws.map (fun p => p.2)).map (fun c => (c.phoneid, c)) = ws := by
      rw [List.map_map]
      have : ∀ p ∈ ws, ((fun c => (c.phoneid, c)) ∘ fun p => p.2) p = id p := by
        intro p hp
        simp [Function.comp, (hkey p hp).symm]
      rw [List.map_congr_left this, List.map_id]
    simp only [read_cache, update_phone_cache, hfold, List.nil_append, hpairs]
  · intro cfgs f0 n hnodup hn
    have hsub : List.Sublist ((cfgs.take (n+1)).map (fun c : PhoneConfig => c.phoneid))
        (cfgs.map (fun c : PhoneConfig => c.phoneid)) :=
      (List.take_sublist _ _).map _
    have htnodup : ((cfgs.take (n+1)).map (fun c : PhoneConfig => c.phoneid)).Nodup :=
      hsub.nodup hnodup
    have hfold := foldl_register_cmd (cfgs.take (n+1)) [] f0 (by simpa using htnodup)
    have hne : (cfgs.take (n+1)).isEmpty = false := by
      rcases cfgs with _ | ⟨c, cs⟩
      · simp at hn
      · simp [List.take]
    refine ⟨by simpa using hfold.1, ?_⟩
    rw [hfold.2, if_neg (by simp [hne])]
    simp only [update_phone_cache, List.nil_append, List.map_map]
    congr 1
    have : ∀ c ∈ cfgs.take (n+1), ((fun p : String × PhoneConfig => p.2)
        ∘ fun c => (c.phoneid, c)) c = id c := by
      intro c _
      simp [Function.comp]
    rw [List.map_congr_left this, List.map_id]

/-- Witness for C6: a two-phone roster round-trips, and a two-step register
sequence leaves the file matching the registry after each step. -/
theorem c6_witness :
    read_cache (update_phone_cache
      [("mac1_flame", { phoneid := "mac1_flame", serial := "S1", ip := "10.0.0.1",
                        sutcmdport := 20701, machinetype := "flame", osver := "18",
                        debug := 3 }),
       ("mac2_nexus", { phoneid := "mac2_nexus", serial := "S2", ip := "10.0.0.2",
                        sutcmdport := 20701, machinetype := "nexus", osver := "19",
                        debug := 3 })])
      = ([("mac1_flame", { phoneid := "mac1_flame", serial := "S1", ip := "10.0.0.1",
                           sutcmdport := 20701, machinetype := "flame", osver := "18",
                           debug := 3 }),
          ("mac2_nexus", { phoneid := "mac2_nexus", serial := "S2", ip := "10.0.0.2",
                           sutcmdport := 20701, machinetype := "nexus", osver := "19",
                           debug := 3 })], none) ∧
    (([{ phoneid := "mac1_flame", serial := "S1", ip := "10.0.0.1",
         sutcmdport := 20701, machinetype := "flame", osver := "18", debug := 3 },
       { phoneid := "mac2_nexus", serial := "S2", ip := "10.0.0.2",
         sutcmdport := 20701, machinetype := "nexus", osver := "19",
         debug := 3 }].take 1).foldl register_cmd
        { phone_workers := [], cacheFile := RosterFile.malformed }).cacheFile
      = RosterFile.json
          ([{ phoneid := "mac1_flame", serial := "S1", ip := "10.0.0.1",
              sutcmdport := 20701, machinetype := "flame", osver := "18", debug := 3 },
            { phoneid := "mac2_nexus", serial := "S2", ip := "10.0.0.2",
              sutcmdport := 20701, machinetype := "nexus", osver := "19",
              debug := 3 }].take 1) :=
  ⟨c6_roster.1
      [("mac1_flame", { phoneid := "mac1_flame", serial := "S1", ip := "10.0.0.1",
                        sutcmdport := 20701, machinetype := "flame", osver := "18",
                        debug := 3 }),
       ("mac2_nexus", { phoneid := "mac2_nexus", serial := "S2", ip := "10.0.0.2",
                        sutcmdport := 20701, machinetype := "nexus", osver := "19",
                        debug := 3 })]
      (by decide) (by decide),
   (c6_roster.2
      [{ phoneid := "mac1_flame", serial := "S1", ip := "10.0.0.1",
         sutcmdport := 20701, machinetype := "flame", osver := "18", debug := 3 },
       { phoneid := "mac2_nexus", serial := "S2", ip := "10.0.0.2",
         sutcmdport := 20701, machinetype := "nexus", osver := "19", debug := 3 }]
      RosterFile.malformed 0 (by decide) (by decide)).2⟩

/-! ## Platform detection lemmas (claim C5) -/

theorem mem_insertDesc (x a : String) :
    ∀ l : List String, a ∈ insertDesc x l ↔ a = x ∨ a ∈ l := by
  intro l
  induction l with
  | nil => simp [insertDesc]
  | cons y ys ih =>
    unfold insertDesc
    by_cases h : y.length < x.length
    · simp [h]
    · rw [if_neg h]
      simp only [List.mem_cons, ih]
      tauto

theorem pairwise_insertDesc (x : String) :
    ∀ l : List String,
      l.Pairwise (fun p q => q.length ≤ p.length) →
      (insertDesc x l).Pairwise (fun p q => q.length ≤ p.length) := by
  intro l
  induction l with
  | nil =>
    intro _
    simp [insertDesc]
  | cons y ys ih =>
    intro h
    rcases List.pairwise_cons.mp h with ⟨hy, hys⟩
    unfold insertDesc
    by_cases hlt : y.length < x.length
    · rw [if_pos hlt]
      refine List.pairwise_cons.mpr ⟨?_, h⟩
      intro b hb
      rcases List.mem_cons.mp hb with rfl | hb2
      · exact Nat.le_of_lt hlt
      · exact Nat.le_of_lt (Nat.lt_of_le_of_lt (hy b hb2) hlt)
    · rw [if_neg hlt]
      refine List.pairwise_cons.mpr ⟨?_, ih hys⟩
      intro b hb
      rcases (mem_insertDesc x b ys).mp hb with rfl | hb2
      · exact Nat.le_of_not_lt hlt
      · exact hy b hb2

theorem mem_sortPlatforms (a : String) (l : List String) :
    a ∈ sortPlatforms l ↔ a ∈ l := by
  unfold sortPlatforms
  suffices h : ∀ (l acc : List String),
      a ∈ l.foldl (fun acc x => insertDesc x acc) acc ↔ a ∈ acc ∨ a ∈ l by
    simpa using h l []
  intro l
  induction l with
  | nil => simp
  | cons x xs ih =>
    intro acc
    rw [List.foldl_cons, ih, mem_insertDesc]
    simp
    tauto

theorem pairwise_sortPlatforms (l : List String) :
    (sortPlatforms l).Pairwise (fun p q => q.length ≤ p.length) := by
  unfold sortPlatforms
  suffices h : ∀ (l acc : List String),
      acc.Pairwise (fun p q => q.length ≤ p.length) →
      (l.foldl (fun acc x => insertDesc x acc) acc).Pairwise
        (fun p q => q.length ≤ p.length) from
    h l [] (by simp)
  intro l
  induction l with
  | nil =>
    intro acc h
    simpa using h
  | cons x xs ih =>
    intro acc h
    rw [List.foldl_cons]
    exact ih _ (pairwise_insertDesc x acc h)

/-- In a list sorted by descending length that contains a match of length
at least that of P2, find? returns a match at least that long. -/
theorem find_matches_long (url P2 : String) (hm : strContains url P2 = true) :
    ∀ l : List String,
      l.Pairwise (fun p q => q.length ≤ p.length) → P2 ∈ l →
      ∃ p, l.find? (fun q => strContains url q) = some p ∧
        P2.length ≤ p.length ∧ strContains url p = true := by
  intro l
  induction l with
  | nil =>
    intro _ h
    simp at h
  | cons a rest ih =>
    intro hpw hmem
    rcases List.pairwise_cons.mp hpw with ⟨ha, hrest⟩
    by_cases hc : strContains url a = true
    · refine ⟨a, List.find?_cons_of_pos _ hc, ?_, hc⟩
      rcases List.mem_cons.mp hmem with rfl | h2
      · exact Nat.le_refl _
      · exact ha P2 h2
    · have hne : P2 ≠ a := by
        intro h
        exact hc (h ▸ hm)
      have h2 : P2 ∈ rest := by
        rcases List.mem_cons.mp hmem with rfl | h2
        · exact absurd rfl hne
        · exact h2
      rcases ih hrest h2 with ⟨p, hfind, hlen, hcon⟩
      exact ⟨p, by rw [List.find?_cons_of_neg _ (by simp [hc]), hfind], hlen, hcon⟩

/-- Claim C5, counterexample: with configured platforms a, xy and ab, the
pair P1 = a, P2 = ab satisfies the premises of the claim for the build url
abxy (P1 is a proper prefix of P2 and the url contains P2), yet the
detection resolves to xy, not to P2 = ab, because the equally long platform
xy sorts ahead of ab and also occurs in the url. -/
theorem c5_counterexample :
    ("a" : String).toList <+: ("ab" : String).toList ∧ ("a" : String) ≠ "ab" ∧
    ("a" : String) ∈ ["a", "xy", "ab"] ∧ ("ab" : String) ∈ ["a", "xy", "ab"] ∧
    strContains "abxy" "ab" = true ∧
    detect_platform (sortPlatforms ["a", "xy", "ab"]) "android" "abxy" = "xy" ∧
    ("xy" : String) ≠ "ab" := by
  decide

/-- Claim C5 as amended: under the stated premises the detection never
resolves to the shadowed proper prefix P1; it resolves to a platform that
occurs in the build url and is at least as long as P2 (and hence to P2
itself when P2 is the only such platform configured). -/
theorem c5_amended (platforms : List String) (P1 P2 jp url : String)
    (h1 : P1 ∈ platforms) (h2 : P2 ∈ platforms)
    (hpre : P1.toList <+: P2.toList) (hne : P1 ≠ P2)
    (hurl : strContains url P2 = true) :
    detect_platform (sortPlatforms platforms) jp url ≠ P1 ∧
    P2.length ≤ (detect_platform (sortPlatforms platforms) jp url).length ∧
    strContains url (detect_platform (sortPlatforms platforms) jp url) = true := by
  have hlt : P1.length < P2.length := by
    obtain ⟨t, ht⟩ := hpre
    rcases t with _ | ⟨c, t2⟩
    · exfalso
      apply hne
      have hdata : P1.data = P2.data := by simpa using ht
      cases P1
      cases P2
      exact congrArg String.mk hdata
    · have hlen := congrArg List.length ht
      simp only [List.length_append, List.length_cons] at hlen
      have h1l : P1.length = P1.toList.length := rfl
      have h2l : P2.length = P2.toList.length := rfl
      omega
  have hmem : P2 ∈ sortPlatforms platforms := (mem_sortPlatforms P2 platforms).mpr h2
  rcases find_matches_long url P2 hurl (sortPlatforms platforms)
    (pairwise_sortPlatforms platforms) hmem with ⟨p, hfind, hlen, hcon⟩
  have hempty : (sortPlatforms platforms).isEmpty = false := by
    rcases hsp : sortPlatforms platforms with _ | ⟨x, xs⟩
    · rw [hsp] at hmem
      simp at hmem
    · rfl
  have hdet : detect_platform (sortPlatforms platforms) jp url = p := by
    unfold detect_platform
    rw [if_neg (by simp [hempty]), hfind]
  refine ⟨?_, by rw [hdet]; exact hlen, by rw [hdet]; exact hcon⟩
  rw [hdet]
  intro hp
  subst hp
  exact Nat.lt_irrefl _ (Nat.lt_of_lt_of_le hlt hlen)

/-- Witness for C5 as amended, at the counterexample configuration: the
detection result xy is not the shadowed prefix a, is at least as long as ab
and occurs in the url. -/
theorem c5_witness :
    detect_platform (sortPlatforms ["a", "xy", "ab"]) "android" "abxy" ≠ "a" ∧
    ("ab" : String).length
      ≤ (detect_platform (sortPlatforms ["a", "xy", "ab"]) "android" "abxy").length ∧
    strContains "abxy" (detect_platform (sortPlatforms ["a", "xy", "ab"]) "android" "abxy")
      = true :=
  c5_amended ["a", "xy", "ab"] "a" "ab" "android" "abxy"
    (by decide) (by decide) (by decide) (by decide) (by decide)

/-! ## Task-completed normalization lemmas (claims C3 and C4) -/

/-- The artifact loop only consults get_build_data and get_tier: two
environments agreeing on those run it identically. -/
theorem tcLoop_congr (cfg : MonitorConfig) (env env' : TCEnv)
    (hbd : env'.get_build_data = env.get_build_data)
    (htier : env'.get_tier = env.get_tier)
    (bt tid rid : String) :
    ∀ (arts : List String) (bd : Option BuildData) (app : List (String × String)),
      tcLoop cfg env' bt tid rid arts bd app
        = tcLoop cfg env bt tid rid arts bd app := by
  intro arts
  induction arts with
  | nil =>
    intro bd app
    rfl
  | cons name rest ih =>
    intro bd app
    simp only [tcLoop, hbd, htier, ih]

/-- For a buildbot builder_type the tier guard condition is always false,
so the tier lookup cannot influence the loop. -/
theorem tcLoop_buildbot_congr (cfg : MonitorConfig) (env env' : TCEnv)
    (hbd : env'.get_build_data = env.get_build_data) (tid rid : String) :
    ∀ (arts : List String) (bd : Option BuildData) (app : List (String × String)),
      tcLoop cfg env' "buildbot" tid rid arts bd app
        = tcLoop cfg env "buildbot" tid rid arts bd app := by
  intro arts
  induction arts with
  | nil =>
    intro bd app
    rfl
  | cons name rest ih =>
    intro bd app
    simp [tcLoop, hbd, ih]

/-- With a non-buildbot builder_type and no tier equal to 1, every
target.apk artifact is stopped at the tier guard, so the loop can neither
finish with a build_data nor exit through the emitted constructor. -/
theorem tcLoop_tier_blocks (cfg : MonitorConfig) (env : TCEnv)
    (bt tid rid : String) (hbt : bt ≠ "buildbot")
    (htier : ∀ r t i, env.get_tier r t i ≠ 1) :
    ∀ (arts : List String) (app : List (String × String)),
      (∀ bd2 app2, tcLoop cfg env bt tid rid arts none app
        ≠ Except.ok (some bd2, app2)) ∧
      (∀ e, tcLoop cfg env bt tid rid arts none app
        ≠ Except.error (TCOutcome.emitted e)) := by
  intro arts
  induction arts with
  | nil =>
    intro app
    constructor
    · intro bd2 app2 h
      simp [tcLoop] at h
    · intro e h
      simp [tcLoop] at h
  | cons name rest ih =>
    intro app
    by_cases hk : strReplace name "public/build/" "" = "target.apk"
    · rcases hg : env.get_build_data (artifactUrl tid rid name) bt with _ | bd2
      · constructor
        · intro bd3 app3 h
          simp [tcLoop, hk, hg] at h
        · intro e h
          simp [tcLoop, hk, hg] at h
      · have hcond : bt ≠ "buildbot" ∧ env.get_tier bd2.repo tid rid ≠ 1 :=
          ⟨hbt, htier _ _ _⟩
        constructor
        · intro bd3 app3 h
          simp [tcLoop, hk, hg, hcond] at h
        · intro e h
          simp [tcLoop, hk, hg, hcond] at h
    · by_cases hk2 : strReplace name "public/build/" "" = "geckoview_example.apk"
      · have h := ih (dictInsert app "org.mozilla.geckoview_example"
          (artifactUrl tid rid name))
        constructor
        · intro bd3 app3 hh
          apply h.1 bd3 app3
          rw [← hh]
          simp [tcLoop, hk, hk2]
        · intro e hh
          apply h.2 e
          rw [← hh]
          simp [tcLoop, hk, hk2]
      · have h := ih app
        constructor
        · intro bd3 app3 hh
          apply h.1 bd3 app3
          rw [← hh]
          simp [tcLoop, hk, hk2]
        · intro e hh
          apply h.2 e
          rw [← hh]
          simp [tcLoop, hk, hk2]

/-- Claim C3: in the task-completed path, an event whose final build
metadata has repo try is dropped whenever comments (which falls back to
unknown when the rev fetch fails) lacks the substring autophone; and for an
event whose repo is not try, whether build_callback runs does not depend on
the comments lookup. -/
theorem c3_try_optin :
    (∀ (cfg : MonitorConfig) (env : TCEnv) (tid rid : String)
        (bd : BuildData) (app : List (String × String)),
      tcLoop cfg env (builderTypeOf (env.task_definition tid)) tid rid
          (env.artifacts tid rid) none [] = Except.ok (some bd, app) →
      bd.repo = "try" →
      strContains (tcComments env bd) "autophone" = false →
      isEmitted (handle_taskcompleted cfg env tid rid) = false) ∧
    (∀ (cfg : MonitorConfig) (env env' : TCEnv) (tid rid : String),
      env'.task_definition = env.task_definition →
      env'.artifacts = env.artifacts →
      env'.get_build_data = env.get_build_data →
      env'.get_tier = env.get_tier →
      (∀ bd app, tcLoop cfg env (builderTypeOf (env.task_definition tid)) tid rid
          (env.artifacts tid rid) none [] = Except.ok (some bd, app) →
        bd.repo ≠ "try") →
      isEmitted (handle_taskcompleted cfg env tid rid)
        = isEmitted (handle_taskcompleted cfg env' tid rid)) := by
  constructor
  · intro cfg env tid rid bd app hloop hrepo hcom
    simp only [handle_taskcompleted]
    by_cases hmh : mhBranchSkips cfg.trees (env.task_definition tid) = true
    · simp [hmh, isEmitted]
    · rw [if_neg hmh, hloop]
      simp [hrepo, hcom, isEmitted]
  · intro cfg env env' tid rid htd harts hbd htier hrepo
    simp only [handle_taskcompleted, htd, harts]
    rw [tcLoop_congr cfg env env' hbd htier (builderTypeOf (env.task_definition tid))
      tid rid (env.artifacts tid rid) none []]
    by_cases hmh : mhBranchSkips cfg.trees (env.task_definition tid) = true
    · rw [if_pos hmh, if_pos hmh]
    · rw [if_neg hmh, if_neg hmh]
      cases hres : tcLoop cfg env (builderTypeOf (env.task_definition tid)) tid rid
          (env.artifacts tid rid) none [] with
      | error o => rfl
      | ok pair =>
        rcases pair with ⟨bd?, app⟩
        rcases bd? with _ | bd
        · rfl
        · have hnt : bd.repo ≠ "try" := hrepo bd app hres
          simp [hnt, isEmitted]

/-- Claim C4: in the task-completed path, a non-buildbot event (workerType
other than buildbot) whose tier lookups never yield 1 is dropped before
build_callback; for a buildbot event the tier lookup has no effect on the
outcome at all. -/
theorem c4_tier_gating :
    (∀ (cfg : MonitorConfig) (env : TCEnv) (tid rid : String),
      (env.task_definition tid).workerType ≠ "buildbot" →
      (∀ r t i, env.get_tier r t i ≠ 1) →
      isEmitted (handle_taskcompleted cfg env tid rid) = false) ∧
    (∀ (cfg : MonitorConfig) (env env' : TCEnv) (tid rid : String),
      (env.task_definition tid).workerType = "buildbot" →
      env'.task_definition = env.task_definition →
      env'.artifacts = env.artifacts →
      env'.get_build_data = env.get_build_data →
      env'.get_rev_desc = env.get_rev_desc →
      handle_taskcompleted cfg env tid rid = handle_taskcompleted cfg env' tid rid) := by
  constructor
  · intro cfg env tid rid hw htier
    simp only [handle_taskcompleted]
    by_cases hmh : mhBranchSkips cfg.trees (env.task_definition tid) = true
    · simp [hmh, isEmitted]
    · rw [if_neg hmh]
      have hbt : builderTypeOf (env.task_definition tid) ≠ "buildbot" := by
        unfold builderTypeOf
        rw [if_neg hw]
        decide
      have hblocks := tcLoop_tier_blocks cfg env
        (builderTypeOf (env.task_definition tid)) tid rid hbt htier
        (env.artifacts tid rid) []
      cases hres : tcLoop cfg env (builderTypeOf (env.task_definition tid)) tid rid
          (env.artifacts tid rid) none [] with
      | error o =>
        cases o with
        | emitted e => exact absurd hres (hblocks.2 e)
        | skipMhBranch => rfl
        | noBuildData => rfl
        | skipTier => rfl
        | skipRepo => rfl
        | skipPlatform => rfl
        | skipBuildType => rfl
        | skipMissingId => rfl
        | uncaughtKeyError => rfl
        | skipTryNoOptIn => rfl
      | ok pair =>
        rcases pair with ⟨bd?, app⟩
        rcases bd? with _ | bd
        · rfl
        · exact absurd hres (hblocks.1 bd app)
  · intro cfg env env' tid rid hw htd harts hbd hrev
    have hbt : builderTypeOf (env.task_definition tid) = "buildbot" := by
      unfold builderTypeOf
      rw [if_pos hw]
    simp only [handle_taskcompleted, htd, harts, hbt]
    rw [tcLoop_buildbot_congr cfg env env' hbd tid rid (env.artifacts tid rid) none []]
    by_cases hmh : mhBranchSkips cfg.trees (env.task_definition tid) = true
    · rw [if_pos hmh, if_pos hmh]
    · rw [if_neg hmh, if_neg hmh]
      cases tcLoop cfg env "buildbot" tid rid (env.artifacts tid rid) none [] with
      | error o => rfl
      | ok pair =>
        rcases pair with ⟨bd?, app⟩
        rcases bd? with _ | bd
        · rfl
        · simp [tcComments, hrev]

/-! ## Concrete pulse-monitor scenarios for the C3 and C4 witnesses -/

def pmCfg : MonitorConfig :=
  { trees := ["try", "mozilla-central"], platforms := ["android-api-16"],
    buildtypes := ["opt"] }

def bdTry : BuildData :=
  { repo := "try", platform := "android-api-16", build_type := some "opt",
    hasId := true, changeset := "https://hg.mozilla.org/try/rev/abc123" }

def bdCentral : BuildData :=
  { repo := "mozilla-central", platform := "android-api-16", build_type := some "opt",
    hasId := true, changeset := "https://hg.mozilla.org/mozilla-central/rev/def456" }

/-- A try build whose comments fetch fails (comments falls back to
unknown). -/
def envTry : TCEnv :=
  { task_definition := fun _ => { mh_branch := none, workerType := "tcworker" },
    artifacts := fun _ _ => ["public/build/target.apk"],
    get_build_data := fun _ _ => some bdTry,
    get_tier := fun _ _ _ => 1,
    get_rev_desc := fun _ => none }

/-- A mozilla-central build whose comments fetch fails. -/
def envCentral : TCEnv :=
  { task_definition := fun _ => { mh_branch := none, workerType := "tcworker" },
    artifacts := fun _ _ => ["public/build/target.apk"],
    get_build_data := fun _ _ => some bdCentral,
    get_tier := fun _ _ _ => 1,
    get_rev_desc := fun _ => none }

/-- Same event with a successful comments fetch. -/
def envCentral' : TCEnv :=
  { envCentral with get_rev_desc := fun _ => some "Bug 123 - land something" }

/-- A taskcluster build whose tier lookup yields 3. -/
def envTier : TCEnv :=
  { task_definition := fun _ => { mh_branch := none, workerType := "tcworker" },
    artifacts := fun _ _ => ["public/build/target.apk"],
    get_build_data := fun _ _ => some bdCentral,
    get_tier := fun _ _ _ => 3,
    get_rev_desc := fun _ => none }

/-- A buildbot build whose tier lookup yields 3. -/
def envBB : TCEnv :=
  { task_definition := fun _ => { mh_branch := none, workerType := "buildbot" },
    artifacts := fun _ _ => ["public/build/target.apk"],
    get_build_data := fun _ _ => some bdCentral,
    get_tier := fun _ _ _ => 3,
    get_rev_desc := fun _ => none }

/-- The same buildbot build with a different tier lookup. -/
def envBB' : TCEnv :=
  { envBB with get_tier := fun _ _ _ => 7 }

/-- Witness for C3: a try build with failed comments fetch is dropped, and
for a mozilla-central build the emit decision is the same whether or not
the comments fetch succeeds. -/
theorem c3_witness :
    isEmitted (handle_taskcompleted pmCfg envTry "T1" "0") = false ∧
    isEmitted (handle_taskcompleted pmCfg envCentral "T1" "0")
      = isEmitted (handle_taskcompleted pmCfg envCentral' "T1" "0") :=
  ⟨c3_try_optin.1 pmCfg envTry "T1" "0" bdTry
      [("org.mozilla.fennec", artifactUrl "T1" "0" "public/build/target.apk")]
      rfl rfl (by decide),
   c3_try_optin.2 pmCfg envCentral envCentral' "T1" "0" rfl rfl rfl rfl
      (fun bd app h => by
        rw [show tcLoop pmCfg envCentral
            (builderTypeOf (envCentral.task_definition "T1")) "T1" "0"
            (envCentral.artifacts "T1" "0") none []
            = Except.ok (some bdCentral,
                [("org.mozilla.fennec", artifactUrl "T1" "0" "public/build/target.apk")])
          from rfl] at h
        simp only [Except.ok.injEq, Prod.mk.injEq, Option.some.injEq] at h
        rw [← h.1]
        decide)⟩

/-- Witness for C4: a tier-3 taskcluster build is dropped, and a buildbot
build is handled identically under two different tier lookups. -/
theorem c4_witness :
    isEmitted (handle_taskcompleted pmCfg envTier "T1" "0") = false ∧
    handle_taskcompleted pmCfg envBB "T1" "0"
      = handle_taskcompleted pmCfg envBB' "T1" "0" :=
  ⟨c4_tier_gating.1 pmCfg envTier "T1" "0" (by decide)
      (fun r t i => show (3 : Int) ≠ 1 by decide),
   c4_tier_gating.2 pmCfg envBB envBB' "T1" "0" rfl rfl rfl rfl rfl⟩

end Autophone
